import Mathlib

/-!
Shallow embedding of the ConnectHer sponsor backend: the upload route
(image/video compression pipeline), the sponsor routes (sponsor/post CRUD,
view and click counters, notifications) and the mongoose `Sponsor` model.
Machine-level details that no route inspects (byte contents of buffers,
object ids, timestamps) are abstracted to `Nat`/`String` parameters; every
branch and field assignment of the handlers is translated one-to-one.
-/

/-- URL built by the route handlers for a file stored under `uploads/`:
`http://localhost:3000/uploads/` followed by the filename. -/
def uploadUrl (filename : String) : String :=
  "http://localhost:3000/uploads/" ++ filename

/-- JavaScript truthiness of a string-or-undefined value: `undefined` and the
empty string are falsy, every other string is truthy. -/
def jsTruthyStr : Option String → Bool
  | none => false
  | some s => !(s == "")

/-- JavaScript `a || b` for a string-or-undefined `a`. -/
def jsOrStr (o : Option String) (d : String) : String :=
  match o with
  | none => d
  | some s => if s == "" then d else s

/-- Decoded raster image: pixel dimensions plus a format tag. -/
structure Image where
  width : Nat
  height : Nat
  format : String
deriving DecidableEq

/-- Contents of an uploaded in-memory buffer: either bytes that decode as an
image, or bytes that do not. -/
inductive FileData where
  | image (img : Image)
  | bytes (data : List Nat)
deriving DecidableEq

/-- Model of the sharp pipeline invoked by `compressImage`, following the
library's documented behavior: `resize({ width: 600 })` scales the decoded
image to width exactly 600 with the height scaled to keep the aspect ratio
(smaller inputs are enlarged, since `withoutEnlargement` is not set), and
`jpeg({ quality: 60 })` re-encodes the result as JPEG. -/
def sharpOutput (img : Image) : Image :=
  { width := 600,
    height := if img.width = 0 then img.height else img.height * 600 / img.width,
    format := "jpeg" }

/-- Function `compressImage` of the upload route: run the sharp pipeline on the
buffer and write the JPEG to the output path; sharp rejects a buffer that does
not decode as an image, and then nothing is written. -/
def compressImage (data : FileData) : Except String Image :=
  match data with
  | .image img => .ok (sharpOutput img)
  | .bytes _ => .error "Input buffer contains unsupported image format"

/-- Local and remote side effects of the upload pipeline, in program order. -/
inductive Effect where
  | sharpToFile (path : String)
  | ffmpegWriteTemp (path : String)
  | ffmpegSave (path : String)
  | ffmpegUnlinkTemp (path : String)
  | rawWrite (path : String)
  | cloudinaryUpload (path : String)
  | unlinkOutput (path : String)
deriving DecidableEq

/-- Function `compressVideo` of the upload route: write the raw buffer to a
temporary input file, run ffmpeg with `-crf 28` saving to the output path, and
delete the temporary input in both the `end` and the `error` callback; the
`error` callback rejects with the ffmpeg error after the unlink, the `end`
callback resolves after it. The outcome of the external transcoder process is
the `transcode` argument. -/
def compressVideo (tempInputPath outputPath : String) (transcode : Except String Unit) :
    Except String Unit × List Effect :=
  match transcode with
  | .ok _ =>
    (.ok (),
     [.ffmpegWriteTemp tempInputPath, .ffmpegSave outputPath, .ffmpegUnlinkTemp tempInputPath])
  | .error e =>
    (.error e,
     [.ffmpegWriteTemp tempInputPath, .ffmpegSave outputPath, .ffmpegUnlinkTemp tempInputPath])

/-- JavaScript `String.prototype.startsWith`, character-based. -/
def strStartsWith (s pre : String) : Bool :=
  pre.toList.isPrefixOf s.toList

/-- Character-based suffix test used to model `path.basename(name, ext)`. -/
def strEndsWith (s suffix : String) : Bool :=
  suffix.toList.isSuffixOf s.toList

/-- Drop the last `n` characters of a string. -/
def strDropRight (s : String) (n : Nat) : String :=
  String.mk (s.toList.take (s.toList.length - n))

/-- Lowercase a string character by character, as `toLowerCase` does on the
ASCII names involved here. -/
def toLowerStr (s : String) : String :=
  String.mk (s.toList.map Char.toLower)

/-- Node `path.extname` on a bare filename: the suffix starting at the final
dot, or the empty string when there is no dot or the only dot is the leading
character. -/
def extname (name : String) : String :=
  let cs := name.toList
  let revAfter := cs.reverse.takeWhile (fun c => c ≠ '.')
  if revAfter.length = cs.length then ""
  else if revAfter.length + 1 = cs.length then ""
  else String.mk ('.' :: revAfter.reverse)

/-- Node `path.basename(name, ext)` on a bare filename: strip `ext` when it is
a proper suffix of the name (the whole name is never stripped to nothing). -/
def basenameExt (name ext : String) : String :=
  if strEndsWith name ext = true ∧ name ≠ ext then strDropRight name ext.length else name

/-- Sanitized base name of the upload route:
`base.replace(/[^a-z0-9]/gi, "_").toLowerCase()`. -/
def safeName (base : String) : String :=
  String.mk (base.toList.map (fun c => if c.isAlphanum then c.toLower else '_'))

/-- One multer file entry: original name, declared MIME type, in-memory buffer. -/
structure FileEntry where
  originalname : String
  mimetype : String
  data : FileData
deriving DecidableEq

/-- What the compression stage leaves at the output path. -/
inductive WrittenFile where
  | imageFile (img : Image)
  | videoMp4
  | rawFile (data : FileData)
deriving DecidableEq

/-- Result of the compression stage for a single file: local output path, the
resolved MIME type (`mime` variable of the loop), and the written artifact. -/
structure CompressedOutput where
  outputPath : String
  mime : String
  written : WrittenFile
deriving DecidableEq

/-- Per-file compression step of the upload route's loop: compute the sanitized
output name, then branch on the declared MIME type — images go through sharp
and resolve to `image/jpeg`, videos through ffmpeg and resolve to `video/mp4`,
anything else is written to disk unchanged with its declared type. `now` stands
for `Date.now()` and `transcode` for the external transcoder's outcome per
output path. -/
def processFile (f : FileEntry) (now : Nat) (transcode : String → Except String Unit) :
    Except String CompressedOutput × List Effect :=
  let ext := toLowerStr (extname f.originalname)
  let safe := safeName (basenameExt f.originalname ext)
  if strStartsWith f.mimetype "image/" then
    let outputPath := "uploads/" ++ ("compressed-" ++ safe ++ "-" ++ toString now ++ ".jpg")
    match compressImage f.data with
    | .ok img =>
      (.ok { outputPath := outputPath, mime := "image/jpeg", written := .imageFile img },
       [.sharpToFile outputPath])
    | .error e => (.error e, [])
  else if strStartsWith f.mimetype "video/" then
    let outputPath := "uploads/" ++ ("compressed-" ++ safe ++ "-" ++ toString now ++ ".mp4")
    let tempInput := "uploads/" ++ ("input-" ++ toString now ++ ".mp4")
    match compressVideo tempInput outputPath (transcode outputPath) with
    | (.ok _, effs) =>
      (.ok { outputPath := outputPath, mime := "video/mp4", written := .videoMp4 }, effs)
    | (.error e, effs) => (.error e, effs)
  else
    let outputPath := "uploads/" ++ ("compressed-" ++ safe ++ "-" ++ toString now ++ ext)
    (.ok { outputPath := outputPath, mime := f.mimetype, written := .rawFile f.data },
     [.rawWrite outputPath])

/-- Successful response of `uploadToCloudinary`. -/
structure CloudResult where
  url : String
  public_id : String
deriving DecidableEq

/-- One entry of the upload route's response `files` array. -/
structure UploadedFileResult where
  name : String
  url : String
  public_id : String
  type : String
deriving DecidableEq

/-- One iteration of the upload loop: compress, upload the local file to
Cloudinary, unlink the local file, build the per-file result. `remote` stands
for the external Cloudinary service's outcome per local path. -/
def processOne (f : FileEntry) (now : Nat) (remote : String → Except String CloudResult)
    (transcode : String → Except String Unit) : Except String UploadedFileResult × List Effect :=
  match processFile f now transcode with
  | (.error e, effs) => (.error e, effs)
  | (.ok out, effs) =>
    match remote out.outputPath with
    | .error e => (.error e, effs ++ [.cloudinaryUpload out.outputPath])
    | .ok r =>
      (.ok { name := f.originalname, url := r.url, public_id := r.public_id, type := out.mime },
       effs ++ [.cloudinaryUpload out.outputPath, .unlinkOutput out.outputPath])

/-- The sequential `for (const file of req.files)` loop: aborts on the first
failing file, keeping the side effects already performed. -/
def processBatch (files : List FileEntry) (now : Nat)
    (remote : String → Except String CloudResult) (transcode : String → Except String Unit) :
    Except String (List UploadedFileResult) × List Effect :=
  match files with
  | [] => (.ok [], [])
  | f :: rest =>
    match processOne f now remote transcode with
    | (.error e, effs) => (.error e, effs)
    | (.ok item, effs) =>
      match processBatch rest now remote transcode with
      | (.ok items, effs2) => (.ok (item :: items), effs ++ effs2)
      | (.error e, effs2) => (.error e, effs ++ effs2)

/-- JSON envelope returned by the upload route. -/
structure UploadResponse where
  status : Nat
  success : Bool
  message : Option String
  error : Option String
  files : List UploadedFileResult
deriving DecidableEq

/-- The upload route handler: a missing or empty `req.files` batch is rejected
with 400 before the loop runs; otherwise the loop processes every file and a
failure anywhere yields a 500 with the error message passed through. -/
def uploadHandler (files : List FileEntry) (now : Nat)
    (remote : String → Except String CloudResult) (transcode : String → Except String Unit) :
    UploadResponse × List Effect :=
  if files.length = 0 then
    ({ status := 400, success := false, message := some "No files uploaded",
       error := none, files := [] }, [])
  else
    match processBatch files now remote transcode with
    | (.ok items, effs) =>
      ({ status := 200, success := true, message := none, error := none, files := items }, effs)
    | (.error e, effs) =>
      ({ status := 500, success := false, message := some "Upload failed",
         error := some e, files := [] }, effs)

/-- Embedded post subdocument after mongoose casting (`PostSchema`): `views`,
`clicks` and `createdAt` carry schema defaults, so they are always set on a
stored post, and every stored subdocument has an `_id`. -/
structure Post where
  _id : Nat
  media : Option String
  caption : Option String
  jobLink : Option String
  views : Nat
  clicks : Nat
  createdAt : Nat
deriving DecidableEq

/-- Plain JavaScript object literal as built by the add-post handler, before
any mongoose casting: reading a property the literal does not define (here
`_id` and `clicks`) yields `undefined`, modelled as `none`. -/
structure PlainPost where
  _id : Option Nat
  media : Option String
  caption : Option String
  jobLink : Option String
  views : Option Nat
  clicks : Option Nat
  createdAt : Nat
deriving DecidableEq

/-- Mongoose `DocumentArray.push` casts the plain object into a fresh embedded
document: a new `_id` is generated and schema defaults fill the missing
numeric fields. The cast builds a new subdocument; the original plain object
is left untouched and in particular never learns the generated `_id`. -/
def castPost (p : PlainPost) (freshId : Nat) : Post :=
  { _id := freshId, media := p.media, caption := p.caption, jobLink := p.jobLink,
    views := p.views.getD 0, clicks := p.clicks.getD 0, createdAt := p.createdAt }

/-- Sponsor document (`SponsorSchema`). -/
structure Sponsor where
  _id : Nat
  companyName : String
  logo : Option String
  objectives : Option String
  posts : List Post
  postCount : Nat
deriving DecidableEq

/-- Notification document as created by the add-post handler. -/
structure Notification where
  type : String
  title : String
  content : String
  sponsorId : Nat
  postId : Option Nat
  createdAt : Nat
  forAll : Bool
deriving DecidableEq

/-- Persistence calls issued by the add-post handler, in program order. -/
inductive DbEffect where
  | sponsorSave
  | notificationCreate
deriving DecidableEq

/-- The register route: build the sponsor with `posts: []` and `postCount: 0`
and save it; the mongoose `required: true` validator on `companyName` rejects
a missing or empty value when `save()` runs, which the handler turns into a
500. `newId` stands for the generated document id. -/
def registerSponsor (companyName objectives logoFile : Option String) (newId : Nat) :
    Except String Sponsor :=
  match companyName with
  | none => .error "Sponsor validation failed: companyName is required."
  | some cn =>
    if cn = "" then .error "Sponsor validation failed: companyName is required."
    else
      .ok { _id := newId, companyName := cn, logo := logoFile.map uploadUrl,
            objectives := objectives, posts := [], postCount := 0 }

/-- Object literal built by the add-post handler: `views` is set explicitly to
`0`; `clicks` and `_id` are not part of the literal. -/
def mkPlainPost (caption jobLink media : Option String) (now : Nat) : PlainPost :=
  { _id := none, media := media, caption := caption, jobLink := jobLink,
    views := some 0, clicks := none, createdAt := now }

/-- Everything the add-post handler produces: the saved sponsor, the created
notification, and the order of the persistence calls. -/
structure AddPostResult where
  sponsor : Sponsor
  notif : Notification
  trace : List DbEffect
deriving DecidableEq

/-- The add-post route on a sponsor that `findById` resolved: push the post
literal (mongoose casts it to a subdocument with the fresh id `freshId`), set
`postCount = posts.length`, save, then create the notification. The
notification's `postId` field is `post._id` read off the plain literal, which
never received an id. -/
def addPostHandler (s : Sponsor) (caption jobLink file : Option String) (freshId now : Nat) :
    AddPostResult :=
  let plain := mkPlainPost caption jobLink (file.map uploadUrl) now
  let posts2 := s.posts ++ [castPost plain freshId]
  { sponsor := { s with posts := posts2, postCount := posts2.length },
    notif := { type := "sponsor", title := "New Sponsorship Alert",
               content := s.companyName ++ " just posted a new sponsorship opportunity.",
               sponsorId := s._id, postId := plain._id, createdAt := now, forAll := true },
    trace := [.sponsorSave, .notificationCreate] }

/-- Mongoose `DocumentArray.id`: the first subdocument with the given id, or
null when none matches. -/
def postsId (ps : List Post) (pid : Nat) : Option Post :=
  match ps with
  | [] => none
  | p :: rest => if p._id = pid then some p else postsId rest pid

/-- In-place mutation of the subdocument found by `DocumentArray.id`: rewrite
the first element whose id matches, keep everything else. -/
def updateFirst (ps : List Post) (pid : Nat) (f : Post → Post) : List Post :=
  match ps with
  | [] => []
  | p :: rest => if p._id = pid then f p :: rest else p :: updateFirst rest pid f

/-- The delete route's `posts.findIndex(p => p._id.toString() === postId)`. -/
def findIndex (ps : List Post) (pid : Nat) : Option Nat :=
  match ps with
  | [] => none
  | p :: rest => if p._id = pid then some 0 else (findIndex rest pid).map (· + 1)

/-- The delete route's `posts.splice(i, 1)`. -/
def spliceOne (ps : List Post) (i : Nat) : List Post :=
  match ps, i with
  | [], _ => []
  | _ :: rest, 0 => rest
  | p :: rest, n + 1 => p :: spliceOne rest n

/-- Field updates of the update-post route: `if (req.body.caption)` and
`if (req.body.jobLink)` are JavaScript truthiness tests on the body fields,
and the media URL is rebuilt only when `req.file` is attached. The request
body is modelled by the only two fields the handler ever reads. -/
def updatePostFields (p : Post) (caption jobLink file : Option String) : Post :=
  let p1 := if jsTruthyStr caption then { p with caption := caption } else p
  let p2 := if jsTruthyStr jobLink then { p1 with jobLink := jobLink } else p1
  match file with
  | some fn => { p2 with media := some (uploadUrl fn) }
  | none => p2

/-- The update-post route on a resolved sponsor: 404 when the post id does not
resolve, otherwise mutate the found subdocument in place and save. -/
def updatePostHandler (s : Sponsor) (pid : Nat) (caption jobLink file : Option String) :
    Nat × Sponsor :=
  match postsId s.posts pid with
  | none => (404, s)
  | some _ =>
    (200, { s with posts := updateFirst s.posts pid
                     (fun p => updatePostFields p caption jobLink file) })

/-- The delete-post route on a resolved sponsor: 404 when `findIndex` misses,
otherwise splice the post out, set `postCount = posts.length` and save. -/
def deletePostHandler (s : Sponsor) (pid : Nat) : Nat × Sponsor :=
  match findIndex s.posts pid with
  | none => (404, s)
  | some i =>
    let posts2 := spliceOne s.posts i
    (200, { s with posts := posts2, postCount := posts2.length })

/-- The view route's increment, `post.views = (post.views || 0) + 1`; on a
schema-defaulted `views : Nat` the `|| 0` guard is the identity. -/
def bumpViews (p : Post) : Post := { p with views := p.views + 1 }

/-- The redirect route's increment, `post.clicks = (post.clicks || 0) + 1`. -/
def bumpClicks (p : Post) : Post := { p with clicks := p.clicks + 1 }

/-- The view route on a resolved sponsor: 404 when the post id does not
resolve, otherwise bump that post's `views` and save (200). -/
def viewHandler (s : Sponsor) (pid : Nat) : Nat × Sponsor :=
  match postsId s.posts pid with
  | none => (404, s)
  | some _ => (200, { s with posts := updateFirst s.posts pid bumpViews })

/-- Response of the redirect route: status, saved sponsor, redirect location. -/
structure ClickResponse where
  status : Nat
  sponsor : Sponsor
  location : Option String
deriving DecidableEq

/-- The redirect route on a resolved sponsor: 404 when the post id does not
resolve, otherwise bump that post's `clicks`, save, and redirect (302) to
`post.jobLink || "/"`. -/
def clickHandler (s : Sponsor) (pid : Nat) : ClickResponse :=
  match postsId s.posts pid with
  | none => { status := 404, sponsor := s, location := none }
  | some post =>
    { status := 302, sponsor := { s with posts := updateFirst s.posts pid bumpClicks },
      location := some (jsOrStr post.jobLink "/") }

/-- Denormalized-count invariant of the data model. -/
def postInv (s : Sponsor) : Prop := s.postCount = s.posts.length

/-- Projection to the post fields the update-post route must never touch. -/
def postFrame (p : Post) : Nat × Nat × Nat × Nat := (p._id, p.views, p.clicks, p.createdAt)

/-- Concrete post used as a test fixture. -/
def demoPost : Post :=
  { _id := 5, media := none, caption := some "Hiring", jobLink := some "https://x.test",
    views := 2, clicks := 3, createdAt := 0 }

/-- Second concrete post with a distinct id. -/
def demoPostB : Post :=
  { _id := 6, media := some "http://localhost:3000/uploads/a.jpg", caption := none,
    jobLink := none, views := 10, clicks := 20, createdAt := 1 }

/-- Concrete sponsor holding the two fixture posts. -/
def demoSponsor : Sponsor :=
  { _id := 1, companyName := "Acme", logo := none, objectives := some "reach",
    posts := [demoPost, demoPostB], postCount := 2 }

/-- The sponsor produced by a successful concrete registration. -/
def acmeRegistered : Sponsor :=
  { _id := 1, companyName := "Acme", logo := none, objectives := none,
    posts := [], postCount := 0 }

/-- Concrete decoded image, 1000 pixels wide. -/
def demoImage : Image := { width := 1000, height := 500, format := "png" }

/-- Concrete image upload entry. -/
def demoImageFile : FileEntry :=
  { originalname := "pic.png", mimetype := "image/png", data := .image demoImage }

/-- Compression-stage output for `demoImageFile` at timestamp 0. -/
def demoImageOut : CompressedOutput :=
  { outputPath := "uploads/compressed-pic-0.jpg", mime := "image/jpeg",
    written := .imageFile { width := 600, height := 300, format := "jpeg" } }

/-- The fixture post after a concrete partial update. -/
def updatedDemoPost : Post :=
  { _id := 5, media := some "http://localhost:3000/uploads/f.png", caption := some "New",
    jobLink := some "https://x.test", views := 2, clicks := 3, createdAt := 0 }

/-- Claim C5 read literally: on an existing sponsor and post, a field that is
present in the request (modelled as `some`) always overwrites the post's
field, and a field that is absent (`none`) leaves it unchanged. -/
def claimC5Stated : Prop :=
  ∀ (s : Sponsor) (pid : Nat) (caption jobLink file : Option String) (p p' : Post),
    postsId s.posts pid = some p →
    postsId (updatePostHandler s pid caption jobLink file).2.posts pid = some p' →
    (caption.isSome = true → p'.caption = caption) ∧
    (caption = none → p'.caption = p.caption) ∧
    (jobLink.isSome = true → p'.jobLink = jobLink) ∧
    (jobLink = none → p'.jobLink = p.jobLink) ∧
    (∀ fn, file = some fn → p'.media = some (uploadUrl fn)) ∧
    (file = none → p'.media = p.media)

theorem postsId_isSome_of_mem (ps : List Post) (p : Post) (h : p ∈ ps) :
    ∃ q, postsId ps p._id = some q := by
  induction ps with
  | nil => cases h
  | cons a rest ih =>
    by_cases ha : a._id = p._id
    · exact ⟨a, by simp [postsId, ha]⟩
    · rcases List.mem_cons.mp h with rfl | hmem
      · exact absurd rfl ha
      · obtain ⟨q, hq⟩ := ih hmem
        exact ⟨q, by simp [postsId, ha, hq]⟩

theorem map_ite_id_of_not_mem (ps : List Post) (pid : Nat) (f : Post → Post)
    (h : ∀ q ∈ ps, q._id ≠ pid) :
    ps.map (fun q => if q._id = pid then f q else q) = ps := by
  induction ps with
  | nil => rfl
  | cons a rest ih =>
    simp only [List.map_cons]
    rw [if_neg (h a (List.mem_cons_self a rest)),
        ih (fun q hq => h q (List.mem_cons_of_mem a hq))]

theorem updateFirst_eq_map (ps : List Post) (pid : Nat) (f : Post → Post)
    (hnd : (ps.map Post._id).Nodup) :
    updateFirst ps pid f = ps.map (fun q => if q._id = pid then f q else q) := by
  induction ps with
  | nil => rfl
  | cons a rest ih =>
    simp only [List.map_cons, List.nodup_cons] at hnd
    obtain ⟨hna, hnrest⟩ := hnd
    by_cases ha : a._id = pid
    · simp only [updateFirst, List.map_cons, if_pos ha]
      rw [map_ite_id_of_not_mem rest pid f]
      intro q hq hqe
      exact hna (by rw [ha, ← hqe]; exact List.mem_map_of_mem Post._id hq)
    · simp only [updateFirst, List.map_cons, if_neg ha]
      rw [ih hnrest]

theorem postsId_updateFirst (ps : List Post) (pid : Nat) (f : Post → Post)
    (hid : ∀ p, (f p)._id = p._id) :
    postsId (updateFirst ps pid f) pid = (postsId ps pid).map f := by
  induction ps with
  | nil => rfl
  | cons a rest ih =>
    by_cases ha : a._id = pid
    · simp only [updateFirst, if_pos ha, postsId]
      rw [if_pos (by rw [hid a]; exact ha)]
      rfl
    · simp only [updateFirst, if_neg ha, postsId]
      exact ih

theorem findIndex_eq_none (ps : List Post) (pid : Nat) (h : ∀ p ∈ ps, p._id ≠ pid) :
    findIndex ps pid = none := by
  induction ps with
  | nil => rfl
  | cons a rest ih =>
    simp only [findIndex]
    rw [if_neg (h a (List.mem_cons_self a rest)),
        ih (fun q hq => h q (List.mem_cons_of_mem a hq))]
    rfl

theorem updatePostFields_id (p : Post) (caption jobLink file : Option String) :
    (updatePostFields p caption jobLink file)._id = p._id := by
  cases h1 : jsTruthyStr caption <;> cases h2 : jsTruthyStr jobLink <;> cases file <;>
    simp [updatePostFields, h1, h2]

theorem postFrame_updatePostFields (p : Post) (caption jobLink file : Option String) :
    postFrame (updatePostFields p caption jobLink file) = postFrame p := by
  cases h1 : jsTruthyStr caption <;> cases h2 : jsTruthyStr jobLink <;> cases file <;>
    simp [updatePostFields, postFrame, h1, h2]

theorem map_postFrame_updateFirst (ps : List Post) (pid : Nat) (f : Post → Post)
    (hf : ∀ p, postFrame (f p) = postFrame p) :
    (updateFirst ps pid f).map postFrame = ps.map postFrame := by
  induction ps with
  | nil => rfl
  | cons a rest ih =>
    by_cases ha : a._id = pid
    · simp only [updateFirst, if_pos ha, List.map_cons, hf a]
    · simp only [updateFirst, if_neg ha, List.map_cons, ih]

theorem updatePostFields_caption (p : Post) (caption jobLink file : Option String) :
    (updatePostFields p caption jobLink file).caption
      = if jsTruthyStr caption then caption else p.caption := by
  cases h1 : jsTruthyStr caption <;> cases h2 : jsTruthyStr jobLink <;> cases file <;>
    simp [updatePostFields, h1, h2]

theorem updatePostFields_jobLink (p : Post) (caption jobLink file : Option String) :
    (updatePostFields p caption jobLink file).jobLink
      = if jsTruthyStr jobLink then jobLink else p.jobLink := by
  cases h1 : jsTruthyStr caption <;> cases h2 : jsTruthyStr jobLink <;> cases file <;>
    simp [updatePostFields, h1, h2]

theorem updatePostFields_media (p : Post) (caption jobLink file : Option String) :
    (updatePostFields p caption jobLink file).media
      = match file with
        | some fn => some (uploadUrl fn)
        | none => p.media := by
  cases h1 : jsTruthyStr caption <;> cases h2 : jsTruthyStr jobLink <;> cases file <;>
    simp [updatePostFields, h1, h2]

/-- C1: after every successful mutating operation — register sponsor, add
post, delete post — the denormalized `postCount` field equals the length of
the sponsor's `posts` list. -/
theorem postCount_matches_posts_length :
    (∀ cn obj logo i s, registerSponsor cn obj logo i = Except.ok s → postInv s) ∧
    (∀ s caption jobLink file i n, postInv (addPostHandler s caption jobLink file i n).sponsor) ∧
    (∀ s pid, (deletePostHandler s pid).1 = 200 → postInv (deletePostHandler s pid).2) := by
  refine ⟨?_, ?_, ?_⟩
  · intro cn obj logo i s h
    cases cn with
    | none => simp [registerSponsor] at h
    | some c =>
      rw [registerSponsor] at h
      split at h
      · simp at h
      · obtain rfl := (Except.ok.inj h).symm
        simp [postInv]
  · intro s caption jobLink file i n
    simp [addPostHandler, postInv]
  · intro s pid h
    cases hf : findIndex s.posts pid with
    | none => rw [deletePostHandler, hf] at h; simp at h
    | some i => simp [deletePostHandler, hf, postInv]

/-- Witness for C1 at concrete inputs: a concrete registration, a concrete
add-post call and a concrete successful delete. -/
theorem postCount_matches_posts_length_witness :
    postInv acmeRegistered ∧
    postInv (addPostHandler demoSponsor (some "Hi") none none 7 3).sponsor ∧
    postInv (deletePostHandler demoSponsor 5).2 := by
  obtain ⟨h1, h2, h3⟩ := postCount_matches_posts_length
  exact ⟨h1 (some "Acme") none none 1 acmeRegistered rfl,
         h2 demoSponsor (some "Hi") none none 7 3,
         h3 demoSponsor 5 rfl⟩

/-- C2: when the declared MIME type starts with `image/` and the compression
stage succeeds, the resolved type is exactly `image/jpeg` and the written
image has width at most 600, whatever the input image format was. -/
theorem image_upload_jpeg_width_le_600 (f : FileEntry) (now : Nat)
    (transcode : String → Except String Unit) (out : CompressedOutput) (effs : List Effect)
    (hmime : strStartsWith f.mimetype "image/" = true)
    (hok : processFile f now transcode = (Except.ok out, effs)) :
    out.mime = "image/jpeg" ∧
    ∃ img, out.written = WrittenFile.imageFile img ∧ img.width ≤ 600 ∧ img.format = "jpeg" := by
  cases hdata : f.data with
  | image img =>
    simp only [processFile, hmime, if_true, hdata, compressImage, Prod.mk.injEq,
      Except.ok.injEq] at hok
    obtain ⟨h1, -⟩ := hok
    subst h1
    exact ⟨rfl, sharpOutput img, rfl, by simp [sharpOutput], rfl⟩
  | bytes bs =>
    simp only [processFile, hmime, if_true, hdata, compressImage] at hok
    simp at hok

/-- Witness for C2 at a concrete 1000-pixel-wide PNG upload. -/
theorem image_upload_jpeg_width_le_600_witness :
    strStartsWith demoImageFile.mimetype "image/" = true ∧
    processFile demoImageFile 0 (fun _ => Except.ok ())
      = (Except.ok demoImageOut, [Effect.sharpToFile "uploads/compressed-pic-0.jpg"]) ∧
    (demoImageOut.mime = "image/jpeg" ∧
      ∃ img, demoImageOut.written = WrittenFile.imageFile img ∧
        img.width ≤ 600 ∧ img.format = "jpeg") :=
  ⟨rfl, rfl,
   image_upload_jpeg_width_le_600 demoImageFile 0 (fun _ => Except.ok ()) demoImageOut
     [Effect.sharpToFile "uploads/compressed-pic-0.jpg"] rfl rfl⟩

/-- C3: an empty batch is answered with 400, and no compression, remote-store
or filesystem effect is performed. -/
theorem empty_batch_rejected_before_processing (now : Nat)
    (remote : String → Except String CloudResult) (transcode : String → Except String Unit) :
    uploadHandler [] now remote transcode =
      ({ status := 400, success := false, message := some "No files uploaded",
         error := none, files := [] }, []) := rfl

/-- C4, evaluated at a concrete add-post call on the fixture sponsor with
fresh post id 7: the notification is created after the save, references the
sponsor id and carries `forAll := true` — but its `postId` is `none`, because
the handler reads `post._id` off the plain object literal, which mongoose
never assigned an id, so the notification does not reference the new post's
id 7. -/
theorem addPost_notification_missing_postId :
    (addPostHandler demoSponsor (some "Hiring") (some "https://x.test") none 7 3).trace
      = [DbEffect.sponsorSave, DbEffect.notificationCreate] ∧
    (addPostHandler demoSponsor (some "Hiring") (some "https://x.test") none 7 3).notif.sponsorId
      = demoSponsor._id ∧
    (addPostHandler demoSponsor (some "Hiring") (some "https://x.test") none 7 3).notif.forAll
      = true ∧
    (addPostHandler demoSponsor (some "Hiring") (some "https://x.test") none 7 3).sponsor.posts.map
      Post._id = [5, 6, 7] ∧
    (addPostHandler demoSponsor (some "Hiring") (some "https://x.test") none 7 3).notif.postId
      = none :=
  ⟨rfl, rfl, rfl, rfl, rfl⟩

/-- C5 as stated is false: post 5's caption is `some "Hiring"`, and an update
request whose caption is present but empty (`some ""`) leaves the caption
unchanged, because the handler's `if (req.body.caption)` is a truthiness
test, not a presence test. -/
theorem present_empty_caption_not_applied : ¬ claimC5Stated := by
  intro h
  have h2 := h demoSponsor 5 (some "") none none demoPost demoPost rfl rfl
  have h3 := h2.1 rfl
  exact absurd h3 (by decide)

/-- C5 amended: on an existing sponsor and post, a caption or jobLink field
overwrites exactly when it is present with a non-empty (truthy) value, and
the media URL overwrites exactly when a file is attached; a field that is
absent or empty is left unchanged. -/
theorem update_overwrites_truthy_fields (s : Sponsor) (pid : Nat)
    (caption jobLink file : Option String) (p p' : Post)
    (hp : postsId s.posts pid = some p)
    (hp' : postsId (updatePostHandler s pid caption jobLink file).2.posts pid = some p') :
    p' = updatePostFields p caption jobLink file ∧
    (jsTruthyStr caption = true → p'.caption = caption) ∧
    (jsTruthyStr caption = false → p'.caption = p.caption) ∧
    (jsTruthyStr jobLink = true → p'.jobLink = jobLink) ∧
    (jsTruthyStr jobLink = false → p'.jobLink = p.jobLink) ∧
    (∀ fn, file = some fn → p'.media = some (uploadUrl fn)) ∧
    (file = none → p'.media = p.media) := by
  simp only [updatePostHandler, hp] at hp'
  rw [postsId_updateFirst s.posts pid _ (fun q => updatePostFields_id q caption jobLink file),
      hp, Option.map_some'] at hp'
  obtain rfl := (Option.some.inj hp').symm
  refine ⟨rfl, ?_, ?_, ?_, ?_, ?_, ?_⟩
  · intro ht; rw [updatePostFields_caption, if_pos ht]
  · intro ht; rw [updatePostFields_caption, if_neg (by simp [ht])]
  · intro ht; rw [updatePostFields_jobLink, if_pos ht]
  · intro ht; rw [updatePostFields_jobLink, if_neg (by simp [ht])]
  · intro fn hfn; rw [updatePostFields_media, hfn]
  · intro hfn; rw [updatePostFields_media, hfn]

/-- Witness for the amended C5 at a concrete update: caption present and
non-empty overwrites, jobLink present but empty is left unchanged, attached
file rewrites the media URL. -/
theorem update_overwrites_truthy_fields_witness :
    postsId demoSponsor.posts 5 = some demoPost ∧
    postsId (updatePostHandler demoSponsor 5 (some "New") (some "") (some "f.png")).2.posts 5
      = some updatedDemoPost ∧
    (updatedDemoPost = updatePostFields demoPost (some "New") (some "") (some "f.png") ∧
     (jsTruthyStr (some "New") = true → updatedDemoPost.caption = some "New") ∧
     (jsTruthyStr (some "New") = false → updatedDemoPost.caption = demoPost.caption) ∧
     (jsTruthyStr (some "") = true → updatedDemoPost.jobLink = some "") ∧
     (jsTruthyStr (some "") = false → updatedDemoPost.jobLink = demoPost.jobLink) ∧
     (∀ fn, (some "f.png" : Option String) = some fn →
        updatedDemoPost.media = some (uploadUrl fn)) ∧
     ((some "f.png" : Option String) = none → updatedDemoPost.media = demoPost.media)) :=
  ⟨rfl, rfl,
   update_overwrites_truthy_fields demoSponsor 5 (some "New") (some "") (some "f.png")
     demoPost updatedDemoPost rfl rfl⟩

/-- C6: on a sponsor whose post ids are pairwise distinct, registering a view
(respectively a click) on a post rewrites the post list pointwise: the chosen
post gets exactly `views + 1` (respectively `clicks + 1`) and every other
post is left unchanged. -/
theorem view_click_increment_exactly_one (s : Sponsor) (p : Post)
    (hmem : p ∈ s.posts) (hnd : (s.posts.map Post._id).Nodup) :
    (viewHandler s p._id).1 = 200 ∧
    (viewHandler s p._id).2.posts
      = s.posts.map (fun q => if q._id = p._id then bumpViews q else q) ∧
    (clickHandler s p._id).status = 302 ∧
    (clickHandler s p._id).sponsor.posts
      = s.posts.map (fun q => if q._id = p._id then bumpClicks q else q) := by
  obtain ⟨q, hq⟩ := postsId_isSome_of_mem s.posts p hmem
  refine ⟨?_, ?_, ?_, ?_⟩ <;> simp only [viewHandler, clickHandler, hq]
  · exact updateFirst_eq_map s.posts p._id bumpViews hnd
  · exact updateFirst_eq_map s.posts p._id bumpClicks hnd

/-- Witness for C6 on the fixture sponsor and its post 5. -/
theorem view_click_increment_exactly_one_witness :
    demoPost ∈ demoSponsor.posts ∧ (demoSponsor.posts.map Post._id).Nodup ∧
    ((viewHandler demoSponsor demoPost._id).1 = 200 ∧
     (viewHandler demoSponsor demoPost._id).2.posts
       = demoSponsor.posts.map (fun q => if q._id = demoPost._id then bumpViews q else q) ∧
     (clickHandler demoSponsor demoPost._id).status = 302 ∧
     (clickHandler demoSponsor demoPost._id).sponsor.posts
       = demoSponsor.posts.map (fun q => if q._id = demoPost._id then bumpClicks q else q)) :=
  ⟨by decide, by decide,
   view_click_increment_exactly_one demoSponsor demoPost (by decide) (by decide)⟩

/-- C7: deleting a post id that no post of the sponsor carries answers 404
and returns the sponsor unchanged — same posts list, same `postCount`. -/
theorem delete_missing_post_404_unchanged (s : Sponsor) (pid : Nat)
    (h : ∀ p ∈ s.posts, p._id ≠ pid) :
    deletePostHandler s pid = (404, s) := by
  simp only [deletePostHandler, findIndex_eq_none s.posts pid h]

/-- Witness for C7: post id 99 is on no post of the fixture sponsor. -/
theorem delete_missing_post_404_unchanged_witness :
    (∀ p ∈ demoSponsor.posts, p._id ≠ 99) ∧
    deletePostHandler demoSponsor 99 = (404, demoSponsor) :=
  ⟨by decide, delete_missing_post_404_unchanged demoSponsor 99 (by decide)⟩

/-- C8: the temporary raw-input file of `compressVideo` is unlinked on both
the success and the failure path, and the returned outcome is exactly the
transcoder's outcome, so a transcode failure is propagated to the caller
after the cleanup. -/
theorem video_temp_input_always_cleaned (tin tout : String)
    (transcode : Except String Unit) :
    Effect.ffmpegUnlinkTemp tin ∈ (compressVideo tin tout transcode).2 ∧
    (compressVideo tin tout transcode).1 = transcode := by
  cases transcode <;> simp [compressVideo]

/-- C9: whatever fields the update request carries, the update-post route
never changes the sponsor's `postCount` nor any post's id, views, clicks or
creation time. -/
theorem update_post_touches_only_content_fields (s : Sponsor) (pid : Nat)
    (caption jobLink file : Option String) :
    (updatePostHandler s pid caption jobLink file).2.postCount = s.postCount ∧
    (updatePostHandler s pid caption jobLink file).2.posts.map postFrame
      = s.posts.map postFrame := by
  cases hq : postsId s.posts pid with
  | none => simp [updatePostHandler, hq]
  | some q =>
    constructor
    · simp [updatePostHandler, hq]
    · simp only [updatePostHandler, hq]
      exact map_postFrame_updateFirst s.posts pid _
        (fun p => postFrame_updatePostFields p caption jobLink file)

/-- C10: a post created by the add-post route is appended at the end of the
list and starts with `views = 0` — set explicitly in the handler's literal —
and `clicks = 0` — absent from the literal and filled in by the schema
default when mongoose casts the subdocument. -/
theorem new_post_zero_counters (s : Sponsor) (caption jobLink file : Option String)
    (freshId now : Nat) :
    (addPostHandler s caption jobLink file freshId now).sponsor.posts
      = s.posts ++ [castPost (mkPlainPost caption jobLink (file.map uploadUrl) now) freshId] ∧
    (castPost (mkPlainPost caption jobLink (file.map uploadUrl) now) freshId).views = 0 ∧
    (castPost (mkPlainPost caption jobLink (file.map uploadUrl) now) freshId).clicks = 0 ∧
    (mkPlainPost caption jobLink (file.map uploadUrl) now).views = some 0 ∧
    (mkPlainPost caption jobLink (file.map uploadUrl) now).clicks = none :=
  ⟨rfl, rfl, rfl, rfl, rfl⟩
